import Mathlib

/-!
Verification development for the `bevy_vulkano` game-of-life example
(`src/examples/game_of_life/main.rs`).

The example wires a fixed-timestep run criteria (60 steps/second) to a
single render system `game_of_life_pipeline_system`, polls the mouse every
frame in `draw_life_system`, and updates the window title every frame in
`update_window_title_system`.

Modelling conventions:
* `f32` arithmetic is modelled exactly over `ℚ`; the Rust cast `as i32`
  (truncation toward zero) is `ratAsI32`.
* The swapchain acquire result, the GPU compute step and the paint
  operation live in modules that are not part of the reviewed source
  (`bevy_vulkano` itself, `game_of_life.rs`, `place_over_frame.rs`);
  they are taken as oracles: the acquire result is an `Except` input, the
  compute step and the paint are abstract state-transition parameters.
* The fixed-timestep run criteria (`bevy::time::FixedTimestep`) is also
  external code; `FixedTimestep.poll` below is modelled from the spec
  (§4.1): accumulate the delta, fire at most once per poll when the
  accumulator reaches the 1/60 s interval, and subtract exactly one
  interval, carrying the remainder (and any backlog) forward.
-/

/-- Fixed step interval of the frame clock: the example registers
`FixedTimestep::steps_per_second(60.0)`, i.e. an interval of 1/60 s. -/
def timestep : ℚ := 1 / 60

/-- Modelled from the spec: the internal state of the frame clock
(`TickAccumulator`) — the accumulated wall-clock time not yet consumed by
a fired step.  The implementation (`bevy::time::FixedTimestep`) is not
part of the reviewed source. -/
structure FixedTimestep where
  accumulator : ℚ
deriving Repr, DecidableEq

/-- Modelled from the spec (§4.1): one poll of the frame clock with the
frame's delta.  Accumulates the delta; if the accumulator reaches the
fixed interval it reports due and subtracts exactly one interval (single
fire per poll, backlog retained), otherwise it reports not due. -/
def FixedTimestep.poll (ft : FixedTimestep) (delta : ℚ) : Bool × FixedTimestep :=
  if timestep ≤ ft.accumulator + delta then (true, ⟨ft.accumulator + delta - timestep⟩)
  else (false, ⟨ft.accumulator + delta⟩)

/-- Runs the frame clock over a sequence of frame deltas, returning how
often it reported due together with the final clock state. -/
def FixedTimestep.run : FixedTimestep → List ℚ → ℕ × FixedTimestep
  | ft, [] => (0, ft)
  | ft, d :: ds =>
    ((if (ft.poll d).1 then 1 else 0) + ((ft.poll d).2.run ds).1, ((ft.poll d).2.run ds).2)

theorem timestep_pos : 0 < timestep := by norm_num [timestep]

/-- Invariant of the frame clock: as long as every delta is between 0 and
one interval, the accumulator stays in `[0, timestep)` and the time
consumed by fired steps plus the leftover accumulator accounts exactly
for the accumulated input time. -/
theorem FixedTimestep.run_invariant (ds : List ℚ) (acc : ℚ)
    (h0 : 0 ≤ acc) (h1 : acc < timestep)
    (hds : ∀ d ∈ ds, 0 ≤ d ∧ d ≤ timestep) :
    ((FixedTimestep.mk acc).run ds).2.accumulator
        = acc + ds.sum - (((FixedTimestep.mk acc).run ds).1 : ℚ) * timestep
    ∧ 0 ≤ ((FixedTimestep.mk acc).run ds).2.accumulator
    ∧ ((FixedTimestep.mk acc).run ds).2.accumulator < timestep := by
  induction ds generalizing acc with
  | nil =>
    refine ⟨?_, h0, h1⟩
    simp [FixedTimestep.run]
  | cons d ds ih =>
    obtain ⟨hd0, hd1⟩ := hds d (by simp)
    have hds' : ∀ d ∈ ds, 0 ≤ d ∧ d ≤ timestep := fun x hx => hds x (by simp [hx])
    by_cases hfire : timestep ≤ acc + d
    · have hrec := ih (acc + d - timestep) (by linarith) (by linarith) hds'
      refine ⟨?_, ?_, ?_⟩
      · simp only [FixedTimestep.run, FixedTimestep.poll, List.sum_cons, hfire, if_true, if_pos]
        push_cast
        linear_combination hrec.1
      · simpa only [FixedTimestep.run, FixedTimestep.poll, hfire, if_true, if_pos]
          using hrec.2.1
      · simpa only [FixedTimestep.run, FixedTimestep.poll, hfire, if_true, if_pos]
          using hrec.2.2
    · have hrec := ih (acc + d) (by linarith) (by linarith [lt_of_not_le hfire]) hds'
      refine ⟨?_, ?_, ?_⟩
      · simp only [FixedTimestep.run, FixedTimestep.poll, List.sum_cons, hfire, if_false, if_neg,
          not_false_iff]
        push_cast
        linear_combination hrec.1
      · simpa only [FixedTimestep.run, FixedTimestep.poll, hfire, if_false, if_neg, not_false_iff]
          using hrec.2.1
      · simpa only [FixedTimestep.run, FixedTimestep.poll, hfire, if_false, if_neg, not_false_iff]
          using hrec.2.2

/-! ### Window and startup configuration -/

/-- Presentation modes of `bevy::window::PresentMode` that the example can
name; the example's window descriptor selects `Immediate`. -/
inductive PresentMode
  | Immediate
  | Mailbox
  | Fifo
deriving Repr, DecidableEq

/-- Fields of `bevy::window::WindowDescriptor` that the example sets in
`main` (src/examples/game_of_life/main.rs lines 40-49). -/
structure WindowDescriptor where
  width : ℚ
  height : ℚ
  title : String
  present_mode : PresentMode
  resizable : Bool
deriving Repr, DecidableEq

/-- Window descriptor built in `main`: 1024×1024, titled
"Bevy Vulkano Game Of Life", `PresentMode::Immediate`, resizable. -/
def mainWindowDescriptor : WindowDescriptor :=
  { width := 1024
    height := 1024
    title := "Bevy Vulkano Game Of Life"
    present_mode := PresentMode.Immediate
    resizable := true }

/-- Runtime view of the primary window as the systems read it: pixel
dimensions and the cursor position (`None` when no valid position). -/
structure Window where
  width : ℚ
  height : ℚ
  cursor_position : Option (ℚ × ℚ)
deriving Repr, DecidableEq

/-- Outcome of a Rust `.unwrap()` on `None`: the systems in the example
panic when the primary window is absent.  `Except Panic α` is the shallow
embedding of a possibly panicking computation. -/
inductive Panic
  | unwrapNone
deriving Repr, DecidableEq

/-! ### draw_life_system (src/examples/game_of_life/main.rs lines 98-124) -/

/-- Rust `f32::clamp(self, 0.0, 1.0)`: below the range gives 0, above
gives 1, otherwise the value itself. -/
def clamp01 (q : ℚ) : ℚ :=
  if q < 0 then 0 else if 1 < q then 1 else q

/-- Rust `as i32` on a (finite) float: truncation toward zero. -/
def ratAsI32 (q : ℚ) : ℤ :=
  if 0 ≤ q then ⌊q⌋ else -⌊-q⌋

/-- Cursor-to-grid coordinate computation of `draw_life_system`: the
cursor position is divided by the window dimensions, clamped to `[0, 1]`,
scaled by the automaton image size and cast to `i32`. -/
def drawPos (pos : ℚ × ℚ) (width height : ℚ) (image_size : ℕ × ℕ) : ℤ × ℤ :=
  (ratAsI32 ((image_size.1 : ℚ) * clamp01 (pos.1 / width)),
   ratAsI32 ((image_size.2 : ℚ) * clamp01 (pos.2 / height)))

/-- Embedding of `draw_life_system`: when the left button is pressed it
unwraps the primary window (panicking when there is none) and, when a
cursor position exists, forwards a paint request at `drawPos`; the
returned value is the paint request forwarded to
`GameOfLifeComputePipeline::draw_life` (whose implementation is outside
the reviewed source). -/
def draw_life_system (mousePressedLeft : Bool) (primaryWindow : Option Window)
    (image_size : ℕ × ℕ) : Except Panic (Option (ℤ × ℤ)) :=
  if mousePressedLeft then
    match primaryWindow with
    | none => Except.error Panic.unwrapNone
    | some primary =>
      match primary.cursor_position with
      | none => Except.ok none
      | some pos => Except.ok (some (drawPos pos primary.width primary.height image_size))
  else Except.ok none

/-! ### update_window_title_system (src/examples/game_of_life/main.rs lines 65-71) -/

/-- Rounds to the nearest integer, ties to even — the rounding applied by
Rust's `{:.2}` float formatting at the cut digit. -/
def roundHalfEven (q : ℚ) : ℤ :=
  if q - ⌊q⌋ < 1 / 2 then ⌊q⌋
  else if 1 / 2 < q - ⌊q⌋ then ⌊q⌋ + 1
  else if 2 ∣ ⌊q⌋ then ⌊q⌋ else ⌊q⌋ + 1

/-- Two-digit, zero-padded decimal rendering of `n < 100`. -/
def pad2 (n : ℕ) : String :=
  if n < 10 then "0" ++ toString n else toString n

/-- Fixed-point rendering with two fractional digits, the model of Rust's
`format!("{value:.2}")` over the exact rational value. -/
def fmtFix2 (q : ℚ) : String :=
  if roundHalfEven (100 * q) < 0 then
    "-" ++ toString (-roundHalfEven (100 * q) / 100) ++ "."
      ++ pad2 (-roundHalfEven (100 * q) % 100).toNat
  else
    toString (roundHalfEven (100 * q) / 100) ++ "."
      ++ pad2 (roundHalfEven (100 * q) % 100).toNat

/-- Embedding of `update_window_title_system`: unwraps the primary winit
window (panicking when there is none) and sets the title to the fixed
label followed by `1.0 / delta_seconds` formatted with two decimals.  The
returned string is the title handed to `set_title`. -/
def update_window_title_system (primaryWindow : Option Window) (delta_seconds : ℚ) :
    Except Panic String :=
  match primaryWindow with
  | none => Except.error Panic.unwrapNone
  | some _ => Except.ok ("Bevy Vulkano Game Of Life " ++ fmtFix2 (1 / delta_seconds))

/-! ### create_pipelines (src/examples/game_of_life/main.rs lines 74-95) -/

/-- Embedding of the startup system `create_pipelines`: unwraps the
primary window renderer (panicking when there is none) and creates the
compute pipeline with a 512×512 automaton image; the returned pair is
that image size, the only datum of the inserted resources the other
systems read back in this model. -/
def create_pipelines (primaryWindow : Option Unit) : Except Panic (ℕ × ℕ) :=
  match primaryWindow with
  | none => Except.error Panic.unwrapNone
  | some _ => Except.ok (512, 512)

/-! ### game_of_life_pipeline_system (src/examples/game_of_life/main.rs lines 128-151) -/

/-- Observable GPU-side actions of one run of
`game_of_life_pipeline_system`: the logged acquire error (if any),
whether the compute dispatch (`game_of_life.compute`) ran, whether the
render pass (`place_over_frame.render`) ran, and the list of `present`
calls with their `vsync` argument in order. -/
structure PipelineOutcome where
  loggedError : Option String
  computed : Bool
  rendered : Bool
  presentCalls : List Bool
deriving Repr, DecidableEq

/-- Outcome of a frame whose acquire failed with message `e`: the error
is logged via `bevy::log::error!("Failed to start frame: {}", e)` and the
system returns before any compute, render or present. -/
def failedOutcome (e : String) : PipelineOutcome :=
  { loggedError := some ("Failed to start frame: " ++ e)
    computed := false
    rendered := false
    presentCalls := [] }

/-- Outcome of a frame whose acquire succeeded: one compute dispatch, one
render pass, one `present` call with `vsync = true` (the literal `true`
at line 150). -/
def presentedOutcome : PipelineOutcome :=
  { loggedError := none
    computed := true
    rendered := true
    presentCalls := [true] }

/-- Body of `game_of_life_pipeline_system` after the primary-window
unwrap, over an abstract automaton state `σ`.  The swapchain acquire
result is an oracle input (the window renderer lives in the `bevy_vulkano`
library, outside the reviewed source); `computeStep` is the abstract
effect of `game_of_life.compute` on the automaton state.  On acquire
failure the system logs and returns, leaving the state untouched;
otherwise it computes, renders and presents with `vsync = true`. -/
def game_of_life_pipeline_body {σ : Type} (computeStep : σ → σ)
    (acquireResult : Except String Unit) (grid : σ) : PipelineOutcome × σ :=
  match acquireResult with
  | Except.error e => (failedOutcome e, grid)
  | Except.ok _ => (presentedOutcome, computeStep grid)

/-- Embedding of `game_of_life_pipeline_system`: unwraps the primary
window renderer (panicking when there is none), then runs the body. -/
def game_of_life_pipeline_system {σ : Type} (computeStep : σ → σ)
    (primaryWindow : Option Unit) (acquireResult : Except String Unit) (grid : σ) :
    Except Panic (PipelineOutcome × σ) :=
  match primaryWindow with
  | none => Except.error Panic.unwrapNone
  | some _ => Except.ok (game_of_life_pipeline_body computeStep acquireResult grid)

/-! ### One host frame of the app assembled in main
(src/examples/game_of_life/main.rs lines 36-63) -/

/-- Per-frame external inputs: the frame's wall-clock delta, the left
mouse button state, the cursor position, the window dimensions, and the
oracle outcome of this frame's swapchain acquire. -/
structure FrameInput where
  delta : ℚ
  mousePressedLeft : Bool
  cursorPos : Option (ℚ × ℚ)
  windowSize : ℚ × ℚ
  acquireResult : Except String Unit

/-- Everything observable about one host frame: the title update, the
paint request forwarded by `draw_life_system`, the pipeline outcome
(`none` when the fixed-timestep run criteria reported not due, so
`game_of_life_pipeline_system` did not run), the automaton state after
the frame, and the clock state after the frame. -/
structure FrameTrace (σ : Type) where
  title : Except Panic String
  paintReq : Except Panic (Option (ℤ × ℤ))
  pipeline : Option PipelineOutcome
  grid : σ
  clock : FixedTimestep

/-- Applies a forwarded paint request to the automaton state via the
abstract paint effect (`GameOfLifeComputePipeline::draw_life`, outside
the reviewed source). -/
def appliedPaint {σ : Type} (paintAt : σ → ℤ × ℤ → σ) (grid : σ)
    (req : Except Panic (Option (ℤ × ℤ))) : σ :=
  match req with
  | Except.ok (some p) => paintAt grid p
  | _ => grid

/-- One host frame of the schedule assembled in `main`: the `Update`
stage runs `draw_life_system` and `update_window_title_system` every
frame; the `PostUpdate` stage runs `game_of_life_pipeline_system` only
when the `FixedTimestep::steps_per_second(60.0)` run criteria reports
due for this frame's delta. -/
def hostFrame {σ : Type} (computeStep : σ → σ) (paintAt : σ → ℤ × ℤ → σ)
    (image_size : ℕ × ℕ) (clock : FixedTimestep) (grid : σ) (inp : FrameInput) :
    FrameTrace σ :=
  let primary : Window := ⟨inp.windowSize.1, inp.windowSize.2, inp.cursorPos⟩
  let title := update_window_title_system (some primary) inp.delta
  let paintReq := draw_life_system inp.mousePressedLeft (some primary) image_size
  let grid1 := appliedPaint paintAt grid paintReq
  let due := (clock.poll inp.delta).1
  let clock1 := (clock.poll inp.delta).2
  if due then
    let r := game_of_life_pipeline_body computeStep inp.acquireResult grid1
    { title := title, paintReq := paintReq, pipeline := some r.1, grid := r.2, clock := clock1 }
  else
    { title := title, paintReq := paintReq, pipeline := none, grid := grid1, clock := clock1 }

/-- Whether the automaton step (the compute dispatch) ran this frame. -/
def FrameTrace.stepped {σ : Type} (t : FrameTrace σ) : Bool :=
  match t.pipeline with
  | some o => o.computed
  | none => false

/-- Whether the compositing render pass ran this frame. -/
def FrameTrace.composited {σ : Type} (t : FrameTrace σ) : Bool :=
  match t.pipeline with
  | some o => o.rendered
  | none => false

/-- Whether a present was submitted this frame. -/
def FrameTrace.presented {σ : Type} (t : FrameTrace σ) : Bool :=
  match t.pipeline with
  | some o => !o.presentCalls.isEmpty
  | none => false

/-- Whether a paint request was forwarded to the automaton this frame. -/
def FrameTrace.paintForwarded {σ : Type} (t : FrameTrace σ) : Bool :=
  match t.paintReq with
  | Except.ok (some _) => true
  | _ => false

/-- Boolean success of an acquire oracle outcome. -/
def acquireOk : Except String Unit → Bool
  | Except.ok _ => true
  | Except.error _ => false

/-! ### Helper lemmas -/

theorem clamp01_eq_max_min (q : ℚ) : clamp01 q = max 0 (min q 1) := by
  unfold clamp01
  simp only [max_def, min_def]
  split_ifs <;> linarith

theorem clamp01_nonneg (q : ℚ) : 0 ≤ clamp01 q := by
  unfold clamp01
  split_ifs <;> linarith

theorem clamp01_le_one (q : ℚ) : clamp01 q ≤ 1 := by
  unfold clamp01
  split_ifs <;> linarith

theorem ratAsI32_of_nonneg {q : ℚ} (h : 0 ≤ q) : ratAsI32 q = ⌊q⌋ :=
  if_pos h

theorem ratAsI32_mul_clamp_nonneg (n : ℕ) (q : ℚ) :
    0 ≤ ratAsI32 ((n : ℚ) * clamp01 q) := by
  have h0 : 0 ≤ (n : ℚ) * clamp01 q := mul_nonneg (Nat.cast_nonneg n) (clamp01_nonneg q)
  rw [ratAsI32_of_nonneg h0]
  exact Int.floor_nonneg.mpr h0

theorem ratAsI32_mul_clamp_le (n : ℕ) (q : ℚ) :
    ratAsI32 ((n : ℚ) * clamp01 q) ≤ (n : ℤ) := by
  have h0 : 0 ≤ (n : ℚ) * clamp01 q := mul_nonneg (Nat.cast_nonneg n) (clamp01_nonneg q)
  rw [ratAsI32_of_nonneg h0]
  have h1 : (n : ℚ) * clamp01 q ≤ (n : ℚ) := by
    nlinarith [clamp01_le_one q, clamp01_nonneg q, Nat.cast_nonneg (α := ℚ) n]
  calc ⌊(n : ℚ) * clamp01 q⌋ ≤ ⌊(n : ℚ)⌋ := Int.floor_le_floor h1
    _ = (n : ℤ) := Int.floor_natCast n

/-! ### Claim theorems -/

/-- C4 formula, written from the words of the spec: the pointer position
normalized against the window dimensions with each component clamped to
`[0, 1]`, scaled by the grid pixel dimensions and truncated:
`(floor (grid_w * clamp (x/w) 0 1), floor (grid_h * clamp (y/h) 0 1))`. -/
def specDrawPos (pos : ℚ × ℚ) (width height : ℚ) (grid_size : ℕ × ℕ) : ℤ × ℤ :=
  (⌊(grid_size.1 : ℚ) * max 0 (min (pos.1 / width) 1)⌋,
   ⌊(grid_size.2 : ℚ) * max 0 (min (pos.2 / height) 1)⌋)

/-- C4: for every cursor position and window dimensions, the coordinate
`draw_life_system` forwards equals the spec formula: the position
normalized against the window dimensions, clamped componentwise to
`[0, 1]`, scaled by the grid pixel dimensions and truncated to integers
(truncation agrees with floor because the scaled value is nonnegative). -/
theorem c4_forwarded_coordinate_matches_spec_formula
    (pos : ℚ × ℚ) (w h : ℚ) (sz : ℕ × ℕ) :
    draw_life_system true (some ⟨w, h, some pos⟩) sz
      = Except.ok (some (specDrawPos pos w h sz)) := by
  show Except.ok (some (drawPos pos w h sz)) = Except.ok (some (specDrawPos pos w h sz))
  unfold drawPos specDrawPos
  rw [← clamp01_eq_max_min, ← clamp01_eq_max_min]
  rw [ratAsI32_of_nonneg (mul_nonneg (Nat.cast_nonneg sz.1) (clamp01_nonneg _)),
    ratAsI32_of_nonneg (mul_nonneg (Nat.cast_nonneg sz.2) (clamp01_nonneg _))]

/-- C3 (counterexample): with a 1024×1024 window, the cursor at the far
corner `(1024, 1024)` and the 512×512 automaton image, `draw_life_system`
forwards the coordinate `(512, 512)`, which is not within `[0, 511]`:
the component does not satisfy `≤ grid dimension - 1`. -/
theorem c3_far_edge_coordinate_escapes_grid :
    draw_life_system true (some ⟨1024, 1024, some (1024, 1024)⟩) (512, 512)
        = Except.ok (some (512, 512))
      ∧ ¬ ((512 : ℤ) ≤ 512 - 1) := by
  constructor
  · show Except.ok (some (drawPos (1024, 1024) 1024 1024 (512, 512))) = _
    norm_num [drawPos, ratAsI32, clamp01]
  · decide

/-- C3 (amended): for every pointer position and window size, each
component of the forwarded coordinate lies within `[0, grid dimension]` —
the upper bound is the grid dimension itself, one past the last valid
index, attained when the clamped normalized coordinate is exactly 1. -/
theorem c3_forwarded_coordinate_bounds (pos : ℚ × ℚ) (w h : ℚ) (sz : ℕ × ℕ) :
    (0 ≤ (drawPos pos w h sz).1 ∧ (drawPos pos w h sz).1 ≤ (sz.1 : ℤ))
    ∧ (0 ≤ (drawPos pos w h sz).2 ∧ (drawPos pos w h sz).2 ≤ (sz.2 : ℤ)) :=
  ⟨⟨ratAsI32_mul_clamp_nonneg sz.1 _, ratAsI32_mul_clamp_le sz.1 _⟩,
   ⟨ratAsI32_mul_clamp_nonneg sz.2 _, ratAsI32_mul_clamp_le sz.2 _⟩⟩

theorem hostFrame_title {σ : Type} (computeStep : σ → σ) (paintAt : σ → ℤ × ℤ → σ)
    (sz : ℕ × ℕ) (clock : FixedTimestep) (grid : σ) (inp : FrameInput) :
    (hostFrame computeStep paintAt sz clock grid inp).title
      = update_window_title_system
          (some ⟨inp.windowSize.1, inp.windowSize.2, inp.cursorPos⟩) inp.delta := by
  unfold hostFrame
  dsimp only
  split <;> rfl

theorem hostFrame_paintReq {σ : Type} (computeStep : σ → σ) (paintAt : σ → ℤ × ℤ → σ)
    (sz : ℕ × ℕ) (clock : FixedTimestep) (grid : σ) (inp : FrameInput) :
    (hostFrame computeStep paintAt sz clock grid inp).paintReq
      = draw_life_system inp.mousePressedLeft
          (some ⟨inp.windowSize.1, inp.windowSize.2, inp.cursorPos⟩) sz := by
  unfold hostFrame
  dsimp only
  split <;> rfl

theorem hostFrame_pipeline {σ : Type} (computeStep : σ → σ) (paintAt : σ → ℤ × ℤ → σ)
    (sz : ℕ × ℕ) (clock : FixedTimestep) (grid : σ) (inp : FrameInput) :
    (hostFrame computeStep paintAt sz clock grid inp).pipeline
      = if (clock.poll inp.delta).1 then
          some (game_of_life_pipeline_body computeStep inp.acquireResult
            (appliedPaint paintAt grid
              (draw_life_system inp.mousePressedLeft
                (some ⟨inp.windowSize.1, inp.windowSize.2, inp.cursorPos⟩) sz))).1
        else none := by
  unfold hostFrame
  dsimp only
  split <;> simp_all

theorem hostFrame_grid {σ : Type} (computeStep : σ → σ) (paintAt : σ → ℤ × ℤ → σ)
    (sz : ℕ × ℕ) (clock : FixedTimestep) (grid : σ) (inp : FrameInput) :
    (hostFrame computeStep paintAt sz clock grid inp).grid
      = if (clock.poll inp.delta).1 then
          (game_of_life_pipeline_body computeStep inp.acquireResult
            (appliedPaint paintAt grid
              (draw_life_system inp.mousePressedLeft
                (some ⟨inp.windowSize.1, inp.windowSize.2, inp.cursorPos⟩) sz))).2
        else appliedPaint paintAt grid
          (draw_life_system inp.mousePressedLeft
            (some ⟨inp.windowSize.1, inp.windowSize.2, inp.cursorPos⟩) sz) := by
  unfold hostFrame
  dsimp only
  split <;> simp_all

/-- C1 (counterexample): a host frame on which the fixed-timestep run
criteria reports not due (clock accumulator 0, frame delta 1/120 s
< 1/60 s) while acquisition would succeed: the render system does not
run at all, so nothing is composited and nothing is presented on this
host frame — presentation does not happen at the host frame rate. -/
theorem c1_not_due_host_frame_presents_nothing :
    (hostFrame (σ := ℕ) Nat.succ (fun g _ => g) (512, 512) ⟨0⟩ 0
        ⟨1/120, false, none, (1024, 1024), Except.ok ()⟩).presented = false
    ∧ (hostFrame (σ := ℕ) Nat.succ (fun g _ => g) (512, 512) ⟨0⟩ 0
        ⟨1/120, false, none, (1024, 1024), Except.ok ()⟩).composited = false
    ∧ (hostFrame (σ := ℕ) Nat.succ (fun g _ => g) (512, 512) ⟨0⟩ 0
        ⟨1/120, false, none, (1024, 1024), Except.ok ()⟩).pipeline = none := by
  refine ⟨?_, ?_, ?_⟩ <;>
    norm_num [hostFrame, FixedTimestep.poll, timestep, FrameTrace.presented,
      FrameTrace.composited]

/-- C1 (amended): the fixed-timestep gate applies to the whole
simulate-composite-present system, not to the simulation step alone: on
every host frame, the simulation step, the compositing pass and the
present all happen exactly when the frame clock reports due (and the
acquire succeeds), while the input-driven paint request and the window
title update are computed on every host frame independently of the
gate. -/
theorem c1_gate_covers_whole_render_pipeline {σ : Type} (computeStep : σ → σ)
    (paintAt : σ → ℤ × ℤ → σ) (sz : ℕ × ℕ) (clock : FixedTimestep) (grid : σ)
    (inp : FrameInput) :
    (hostFrame computeStep paintAt sz clock grid inp).stepped
        = ((clock.poll inp.delta).1 && acquireOk inp.acquireResult)
    ∧ (hostFrame computeStep paintAt sz clock grid inp).composited
        = ((clock.poll inp.delta).1 && acquireOk inp.acquireResult)
    ∧ (hostFrame computeStep paintAt sz clock grid inp).presented
        = ((clock.poll inp.delta).1 && acquireOk inp.acquireResult)
    ∧ (hostFrame computeStep paintAt sz clock grid inp).title
        = update_window_title_system
            (some ⟨inp.windowSize.1, inp.windowSize.2, inp.cursorPos⟩) inp.delta
    ∧ (hostFrame computeStep paintAt sz clock grid inp).paintReq
        = draw_life_system inp.mousePressedLeft
            (some ⟨inp.windowSize.1, inp.windowSize.2, inp.cursorPos⟩) sz := by
  refine ⟨?_, ?_, ?_, hostFrame_title _ _ _ _ _ _, hostFrame_paintReq _ _ _ _ _ _⟩ <;>
  · simp only [FrameTrace.stepped, FrameTrace.composited, FrameTrace.presented]
    rw [hostFrame_pipeline]
    by_cases hdue : (clock.poll inp.delta).1 <;>
      cases hacq : inp.acquireResult <;>
        simp [hdue, hacq, game_of_life_pipeline_body, failedOutcome, presentedOutcome,
          acquireOk]

/-- C2: on every host frame whose acquire fails, the driver logs
"Failed to start frame: <error>" and returns: no simulation step, no
compositing, no present, and the automaton state after the frame equals
the state after at most the pointer-driven paint of that frame;
moreover consecutive frames are independent: when the acquire fails
twice and then succeeds, the first two frames leave the state untouched
and present nothing, and the third computes once and presents once. -/
theorem c2_acquire_failure_skips_frame {σ : Type} (computeStep : σ → σ)
    (paintAt : σ → ℤ × ℤ → σ) (sz : ℕ × ℕ) (clock : FixedTimestep) (grid : σ)
    (δ : ℚ) (pressed : Bool) (cp : Option (ℚ × ℚ)) (wsz : ℚ × ℚ) (e e₂ : String) :
    ((hostFrame computeStep paintAt sz clock grid
        ⟨δ, pressed, cp, wsz, Except.error e⟩).stepped = false
      ∧ (hostFrame computeStep paintAt sz clock grid
          ⟨δ, pressed, cp, wsz, Except.error e⟩).composited = false
      ∧ (hostFrame computeStep paintAt sz clock grid
          ⟨δ, pressed, cp, wsz, Except.error e⟩).presented = false
      ∧ (hostFrame computeStep paintAt sz clock grid
            ⟨δ, pressed, cp, wsz, Except.error e⟩).grid
          = appliedPaint paintAt grid
              (draw_life_system pressed (some ⟨wsz.1, wsz.2, cp⟩) sz)
      ∧ (hostFrame computeStep paintAt sz clock grid
            ⟨δ, pressed, cp, wsz, Except.error e⟩).pipeline
          = (if (clock.poll δ).1 then some (failedOutcome e) else none)
      ∧ (failedOutcome e).loggedError = some ("Failed to start frame: " ++ e))
    ∧ ((game_of_life_pipeline_body computeStep (Except.error e) grid).2 = grid
      ∧ (game_of_life_pipeline_body computeStep (Except.error e₂)
          (game_of_life_pipeline_body computeStep (Except.error e) grid).2).2 = grid
      ∧ (game_of_life_pipeline_body computeStep (Except.error e) grid).1.presentCalls = []
      ∧ (game_of_life_pipeline_body computeStep (Except.error e₂)
          (game_of_life_pipeline_body computeStep (Except.error e) grid).2).1.presentCalls
          = []
      ∧ (game_of_life_pipeline_body computeStep (Except.ok ())
          (game_of_life_pipeline_body computeStep (Except.error e₂)
            (game_of_life_pipeline_body computeStep (Except.error e) grid).2).2)
          = (presentedOutcome, computeStep grid)) := by
  constructor
  · refine ⟨?_, ?_, ?_, ?_, ?_, rfl⟩
    · simp only [FrameTrace.stepped]
      rw [hostFrame_pipeline]
      by_cases hdue : (clock.poll δ).1 <;>
        simp [hdue, game_of_life_pipeline_body, failedOutcome]
    · simp only [FrameTrace.composited]
      rw [hostFrame_pipeline]
      by_cases hdue : (clock.poll δ).1 <;>
        simp [hdue, game_of_life_pipeline_body, failedOutcome]
    · simp only [FrameTrace.presented]
      rw [hostFrame_pipeline]
      by_cases hdue : (clock.poll δ).1 <;>
        simp [hdue, game_of_life_pipeline_body, failedOutcome]
    · rw [hostFrame_grid]
      by_cases hdue : (clock.poll δ).1 <;>
        simp [hdue, game_of_life_pipeline_body]
    · rw [hostFrame_pipeline]
      by_cases hdue : (clock.poll δ).1 <;>
        simp [hdue, game_of_life_pipeline_body]
  · exact ⟨rfl, rfl, rfl, rfl, rfl⟩

/-- C7: on every host frame, a paint request is forwarded exactly when
the left mouse button is held and a cursor position exists; the request
is determined by the inputs alone, independent of the clock and the
automaton state, and when no paint occurs the forwarded request is
`none`. -/
theorem c7_paint_iff_pressed_and_cursor {σ : Type} (computeStep : σ → σ)
    (paintAt : σ → ℤ × ℤ → σ) (sz : ℕ × ℕ) (clock clock' : FixedTimestep)
    (grid grid' : σ) (inp : FrameInput) :
    (hostFrame computeStep paintAt sz clock grid inp).paintReq
        = Except.ok (if inp.mousePressedLeft then
            inp.cursorPos.map (fun pos => drawPos pos inp.windowSize.1 inp.windowSize.2 sz)
          else none)
    ∧ (hostFrame computeStep paintAt sz clock grid inp).paintForwarded
        = (inp.mousePressedLeft && inp.cursorPos.isSome)
    ∧ (hostFrame computeStep paintAt sz clock grid inp).paintReq
        = (hostFrame computeStep paintAt sz clock' grid' inp).paintReq := by
  have hreq : (hostFrame computeStep paintAt sz clock grid inp).paintReq
      = Except.ok (if inp.mousePressedLeft then
          inp.cursorPos.map (fun pos => drawPos pos inp.windowSize.1 inp.windowSize.2 sz)
        else none) := by
    rw [hostFrame_paintReq]
    cases hm : inp.mousePressedLeft <;> cases hc : inp.cursorPos <;>
      simp [draw_life_system, hm, hc]
  refine ⟨hreq, ?_, ?_⟩
  · simp only [FrameTrace.paintForwarded, hreq]
    cases hm : inp.mousePressedLeft <;> cases hc : inp.cursorPos <;> simp [hm, hc]
  · rw [hostFrame_paintReq, hostFrame_paintReq]

/-- C9: every per-frame system unwraps the primary-window handle: with
no primary window, `update_window_title_system`, `create_pipelines`,
`draw_life_system` (when the left button is pressed) and
`game_of_life_pipeline_system` all panic instead of skipping, for every
other input. -/
theorem c9_every_system_unwraps_primary_window (δ : ℚ) (sz : ℕ × ℕ) (σ : Type)
    (computeStep : σ → σ) (acq : Except String Unit) (grid : σ) :
    update_window_title_system none δ = Except.error Panic.unwrapNone
    ∧ create_pipelines none = Except.error Panic.unwrapNone
    ∧ draw_life_system true none sz = Except.error Panic.unwrapNone
    ∧ game_of_life_pipeline_system computeStep none acq grid
        = Except.error Panic.unwrapNone :=
  ⟨rfl, rfl, rfl, rfl⟩

/-- C10: the window is configured at startup with
`PresentMode::Immediate`, yet on every frame whose acquire succeeds the
pipeline system presents exactly once with the constant `vsync = true`
argument, for every automaton state — the vsync argument is never
derived from the configured present mode. -/
theorem c10_present_called_once_with_vsync_true :
    mainWindowDescriptor.present_mode = PresentMode.Immediate
    ∧ ∀ (σ : Type) (computeStep : σ → σ) (grid : σ),
        (game_of_life_pipeline_body computeStep (Except.ok ()) grid).1.presentCalls
          = [true] :=
  ⟨rfl, fun _ _ _ => rfl⟩

/-- C5 (counterexample): the single delta 1/30 s (nonnegative, summing
to exactly 2 × 1/60 s) makes the frame clock report due only once, not
twice: with the single-fire-per-poll policy the due count does depend on
how the total is chunked. -/
theorem c5_one_large_chunk_fires_once :
    (0 : ℚ) ≤ 1/30
    ∧ List.sum [(1 : ℚ)/30] = ((2 : ℕ) : ℚ) * timestep
    ∧ ((FixedTimestep.mk 0).run [(1 : ℚ)/30]).1 = 1
    ∧ (1 : ℕ) ≠ 2 := by
  refine ⟨by norm_num, by norm_num [timestep], ?_, by decide⟩
  norm_num [FixedTimestep.run, FixedTimestep.poll, timestep]

/-- C5 (amended): for every sequence of nonnegative frame deltas summing
to exactly k × 1/60 s in which no single delta exceeds one interval, the
frame clock reports due exactly k times over the sequence, regardless of
how the total is chunked; without the per-delta bound a chunk spanning
several intervals fires only once in its poll (single fire per poll), so
the count can fall short of k. -/
theorem c5_due_count_k_for_bounded_chunks (ds : List ℚ) (k : ℕ)
    (hds : ∀ d ∈ ds, 0 ≤ d ∧ d ≤ timestep)
    (hsum : ds.sum = (k : ℚ) * timestep) :
    ((FixedTimestep.mk 0).run ds).1 = k := by
  obtain ⟨heq, h0, h1⟩ := FixedTimestep.run_invariant ds 0 le_rfl timestep_pos hds
  rw [hsum] at heq
  have hts := timestep_pos
  have hA : ((k : ℚ) - (((FixedTimestep.mk 0).run ds).1 : ℚ)) * timestep
      = ((FixedTimestep.mk 0).run ds).2.accumulator := by
    linear_combination -heq
  have h5 : 0 ≤ (k : ℚ) - (((FixedTimestep.mk 0).run ds).1 : ℚ) := by
    by_contra hneg
    push_neg at hneg
    have := mul_neg_of_neg_of_pos hneg hts
    rw [hA] at this
    linarith
  have h6 : (k : ℚ) - (((FixedTimestep.mk 0).run ds).1 : ℚ) < 1 := by
    by_contra hge
    push_neg at hge
    have := le_mul_of_one_le_left hts.le hge
    rw [hA] at this
    linarith
  have h2 : (((FixedTimestep.mk 0).run ds).1 : ℚ) ≤ (k : ℚ) := by linarith
  have h3 : (k : ℚ) < (((FixedTimestep.mk 0).run ds).1 : ℚ) + 1 := by linarith
  have h2' : ((FixedTimestep.mk 0).run ds).1 ≤ k := by exact_mod_cast h2
  have h3' : k < ((FixedTimestep.mk 0).run ds).1 + 1 := by exact_mod_cast h3
  omega

/-- C5 (witness): the sequence of two deltas of 1/60 s each sums to
2 × 1/60 s, every delta is within one interval, and the clock reports
due exactly twice. -/
theorem c5_due_count_k_for_bounded_chunks_witness :
    (∀ d ∈ [(1 : ℚ)/60, 1/60], 0 ≤ d ∧ d ≤ timestep)
    ∧ List.sum [(1 : ℚ)/60, 1/60] = ((2 : ℕ) : ℚ) * timestep
    ∧ ((FixedTimestep.mk 0).run [(1 : ℚ)/60, 1/60]).1 = 2 := by
  have hds : ∀ d ∈ [(1 : ℚ)/60, 1/60], 0 ≤ d ∧ d ≤ timestep := by
    intro d hd
    simp only [List.mem_cons, List.mem_singleton, List.not_mem_nil, or_false] at hd
    rcases hd with h | h <;> rw [h] <;> norm_num [timestep]
  have hsum : List.sum [(1 : ℚ)/60, 1/60] = ((2 : ℕ) : ℚ) * timestep := by
    norm_num [timestep]
  exact ⟨hds, hsum, c5_due_count_k_for_bounded_chunks [(1 : ℚ)/60, 1/60] 2 hds hsum⟩

/-- C6: a poll whose accumulated time reaches the interval fires, and
fires exactly once, subtracting a single interval and carrying the whole
remainder; when the accumulated time spans at least two intervals the
retained backlog still exceeds one interval, so the very next poll
(even with a zero delta) fires again — the backlog is consumed on
subsequent polls, never by multi-fire within one poll. -/
theorem c6_single_fire_per_poll (acc d : ℚ) (hd : timestep ≤ acc + d) :
    FixedTimestep.poll ⟨acc⟩ d = (true, ⟨acc + d - timestep⟩)
    ∧ (2 * timestep ≤ acc + d →
        timestep ≤ ((FixedTimestep.poll ⟨acc⟩ d).2).accumulator
        ∧ (((FixedTimestep.poll ⟨acc⟩ d).2).poll 0).1 = true) := by
  have hp : FixedTimestep.poll ⟨acc⟩ d = (true, ⟨acc + d - timestep⟩) := by
    simp [FixedTimestep.poll, hd]
  refine ⟨hp, fun h2 => ?_⟩
  rw [hp]
  have h3 : timestep ≤ (acc + d - timestep) + 0 := by linarith
  have h3' : timestep ≤ acc + d - timestep := by linarith
  exact ⟨by simpa using h3, by simp [FixedTimestep.poll, h3']⟩

/-- C6 (witness): accumulator 0 and a stalled delta of 1/20 s (three
intervals): that poll fires once with backlog 1/20 − 1/60 = 1/30 s, and
the next poll fires again from the backlog alone. -/
theorem c6_single_fire_per_poll_witness :
    timestep ≤ (0 : ℚ) + 1/20
    ∧ (FixedTimestep.poll ⟨0⟩ (1/20) = (true, ⟨(0 : ℚ) + 1/20 - timestep⟩)
      ∧ (2 * timestep ≤ (0 : ℚ) + 1/20 →
          timestep ≤ ((FixedTimestep.poll ⟨0⟩ (1/20)).2).accumulator
          ∧ (((FixedTimestep.poll ⟨0⟩ (1/20)).2).poll 0).1 = true)) :=
  ⟨by norm_num [timestep], c6_single_fire_per_poll 0 (1/20) (by norm_num [timestep])⟩

theorem pad2_length : ∀ n < 100, (pad2 n).length = 2 := by decide

theorem roundHalfEven_nonneg {q : ℚ} (h : 0 ≤ q) : 0 ≤ roundHalfEven q := by
  have h0 : (0 : ℤ) ≤ ⌊q⌋ := Int.floor_nonneg.mpr h
  unfold roundHalfEven
  split_ifs <;> omega

theorem roundHalfEven_abs_le (q : ℚ) : |((roundHalfEven q : ℤ) : ℚ) - q| ≤ 1 / 2 := by
  have hf0 : (⌊q⌋ : ℚ) ≤ q := Int.floor_le q
  have hf1 : q < (⌊q⌋ : ℚ) + 1 := Int.lt_floor_add_one q
  unfold roundHalfEven
  split_ifs <;> (rw [abs_le]; push_cast; constructor <;> linarith)

/-- C8: on every host frame with a positive delta, the window title is
set to the fixed label "Bevy Vulkano Game Of Life " followed by a
decimal number with exactly two digits after the point, and the number
shown is 1/delta (the frames-per-second value) correctly rounded to a
hundredth: the integer n of shown hundredths differs from 100 × (1/δ)
by at most 1/2. -/
theorem c8_title_is_label_and_two_decimal_fps (δ : ℚ) (hδ : 0 < δ) :
    ∃ n : ℤ, 0 ≤ n
      ∧ |(n : ℚ) - 100 * (1 / δ)| ≤ 1 / 2
      ∧ (pad2 (n % 100).toNat).length = 2
      ∧ ∀ (σ : Type) (computeStep : σ → σ) (paintAt : σ → ℤ × ℤ → σ) (sz : ℕ × ℕ)
          (clock : FixedTimestep) (grid : σ) (pressed : Bool) (cp : Option (ℚ × ℚ))
          (wsz : ℚ × ℚ) (acq : Except String Unit),
          (hostFrame computeStep paintAt sz clock grid ⟨δ, pressed, cp, wsz, acq⟩).title
            = Except.ok ("Bevy Vulkano Game Of Life "
                ++ (toString (n / 100) ++ "." ++ pad2 (n % 100).toNat)) := by
  refine ⟨roundHalfEven (100 * (1 / δ)), roundHalfEven_nonneg (by positivity), ?_, ?_, ?_⟩
  · exact roundHalfEven_abs_le (100 * (1 / δ))
  · apply pad2_length
    have hm0 := Int.emod_nonneg (roundHalfEven (100 * (1 / δ)))
      (show (100 : ℤ) ≠ 0 by norm_num)
    have hm1 := Int.emod_lt_of_pos (roundHalfEven (100 * (1 / δ)))
      (show (0 : ℤ) < 100 by norm_num)
    omega
  · intro σ computeStep paintAt sz clock grid pressed cp wsz acq
    rw [hostFrame_title]
    show Except.ok ("Bevy Vulkano Game Of Life " ++ fmtFix2 (1 / δ)) = _
    unfold fmtFix2
    rw [if_neg (not_lt.mpr (roundHalfEven_nonneg (q := 100 * (1 / δ)) (by positivity)))]

/-- C8 (witness): at delta 1/100 s the shown value is 100.00 and the
format facts hold concretely. -/
theorem c8_title_is_label_and_two_decimal_fps_witness :
    (0 : ℚ) < 1/100
    ∧ ∃ n : ℤ, 0 ≤ n
        ∧ |(n : ℚ) - 100 * (1 / (1/100 : ℚ))| ≤ 1 / 2
        ∧ (pad2 (n % 100).toNat).length = 2
        ∧ ∀ (σ : Type) (computeStep : σ → σ) (paintAt : σ → ℤ × ℤ → σ) (sz : ℕ × ℕ)
            (clock : FixedTimestep) (grid : σ) (pressed : Bool) (cp : Option (ℚ × ℚ))
            (wsz : ℚ × ℚ) (acq : Except String Unit),
            (hostFrame computeStep paintAt sz clock grid
                ⟨1/100, pressed, cp, wsz, acq⟩).title
              = Except.ok ("Bevy Vulkano Game Of Life "
                  ++ (toString (n / 100) ++ "." ++ pad2 (n % 100).toNat)) :=
  ⟨by norm_num, c8_title_is_label_and_two_decimal_fps (1/100) (by norm_num)⟩
